import Mathlib

/-!
Shallow embedding of the TaskPilot backend work-item lifecycle.

Sources embedded here:
- src/models/WorkItem.js       (model layer: create, update, markCompleted, approve, reject, delete)
- src/routes/work.js           (route layer: assign, complete, approve, reject, update, delete, stats,
                                 GET routes and their registration order)
- src/config/database.js       (schema constraints: CHECK on status, NOT NULL columns,
                                 foreign keys with PRAGMA foreign_keys = ON)
- src/middleware/auth.js       (requireAdmin gate)

Machine-level conventions: ids and timestamps are Nat; SQL NULL is Option.none;
a JSON body field that may be absent is Option (absent = none); a field of a
generic update object distinguishes absent (undef), JSON null, and a value.
-/

/- ===== JavaScript string primitives used by the code ===== -/

/-- Characters removed by the JavaScript String.prototype.trim (ASCII part of
WhiteSpace and LineTerminator; the exotic Unicode spaces are not produced by
any input considered here). -/
def jsTrimmable (c : Char) : Bool :=
  c == ' ' || c == '\t' || c == '\n' || c == '\r' || c == '\x0b' || c == '\x0c'

/-- List-level trim: drop trimmable characters from the front, then from the back. -/
def jsTrimList (cs : List Char) : List Char :=
  (((cs.dropWhile jsTrimmable).reverse).dropWhile jsTrimmable).reverse

/-- Model of the JavaScript s.trim(). -/
def jsTrim (s : String) : String :=
  String.mk (jsTrimList s.data)

/-- Characters of the JavaScript regex class backslash-s (ASCII part). -/
def jsSpace (c : Char) : Bool :=
  c == ' ' || c == '\t' || c == '\n' || c == '\r' || c == '\x0b' || c == '\x0c'

/-- Model of the URL check used in WorkItem.js (markCompleted and create):
the regex anchored test for
http(s)://, then one character outside the class of whitespace and the four
characters dollar, dot, question mark, hash, then one character that is not a
line terminator, then a run of non-whitespace characters up to the end. -/
def urlRegexTest (s : String) : Bool :=
  let cs := s.data
  let rest : Option (List Char) :=
    if cs.take 8 = "https://".data then some (cs.drop 8)
    else if cs.take 7 = "http://".data then some (cs.drop 7)
    else none
  match rest with
  | none => false
  | some [] => false
  | some [_] => false
  | some (c1 :: c2 :: tl) =>
    !jsSpace c1 && !(c1 == '$') && !(c1 == '.') && !(c1 == '?') && !(c1 == '#') &&
    !(c2 == '\n') && !(c2 == '\r') &&
    tl.all (fun c => !jsSpace c)

/-- JavaScript truthiness of an optional string field of a JSON body:
absent, null and the empty string are falsy. -/
def strOptTruthy : Option String → Bool
  | none => false
  | some s => !(s == "")

/- ===== Data model (schema of src/config/database.js) ===== -/

/-- Authenticated principal decoded from the bearer token (req.user). -/
structure Actor where
  id : Nat
  role : String
deriving DecidableEq

/-- Row of the users table. -/
structure UserRow where
  id : Nat
  name : String
  email : String
  role : String
  isActive : Bool
  googleAccessToken : Option String
  googleRefreshToken : Option String
deriving DecidableEq

/-- Row of the work_items table. Nullable columns are Option; task,
instructions, deadline, workerId and assignedBy are NOT NULL; status has a
CHECK constraint but no NOT NULL constraint. -/
structure WorkItemRow where
  id : Nat
  workerId : Nat
  task : String
  description : Option String
  instructions : String
  deadline : String
  status : Option String
  assignedAt : Nat
  submittedAt : Option Nat
  reviewedAt : Option Nat
  explanation : Option String
  workLink : Option String
  reviewNotes : Option String
  assignedBy : Nat
  reviewedBy : Option Nat
deriving DecidableEq

/-- State of the store: users table, work_items table, next AUTOINCREMENT id. -/
structure DbState where
  users : List UserRow
  items : List WorkItemRow
  nextId : Nat
deriving DecidableEq

/-- The four values allowed by the CHECK constraint on work_items.status. -/
def validStatuses : List String :=
  ["pending", "submitted", "approved", "rejected"]

/-- SQLite CHECK semantics for the status column: the constraint passes when
the value is NULL (a NULL CHECK result is not a violation) or in the list. -/
def statusCheckOk (s : Option String) : Bool :=
  match s with
  | none => true
  | some v => validStatuses.contains v

def userExists (st : DbState) (uid : Nat) : Bool :=
  st.users.any (fun u => u.id == uid)

/-- Foreign key on work_items.reviewedBy (enforced, PRAGMA foreign_keys = ON). -/
def fkReviewedByOk (st : DbState) (r : WorkItemRow) : Bool :=
  match r.reviewedBy with
  | none => true
  | some uid => userExists st uid

def findItem (st : DbState) (id : Nat) : Option WorkItemRow :=
  st.items.find? (fun r => r.id == id)

/- ===== Generic update objects (WorkItem.prototype.update, WorkItem.js 166-195) ===== -/

/-- Value of one field of a JavaScript update object: absent (undefined),
JSON null, or a value. The JavaScript filter `value !== undefined` keeps
null and values and drops undefined. -/
inductive JsVal (α : Type) where
  | undef : JsVal α
  | null : JsVal α
  | val : α → JsVal α
deriving DecidableEq

def JsVal.isSet {α : Type} : JsVal α → Bool
  | .undef => false
  | _ => true

def JsVal.isNullV {α : Type} : JsVal α → Bool
  | .null => true
  | _ => false

/-- The allow-listed fields of WorkItem.prototype.update, in source order. -/
structure UpdateData where
  task : JsVal String
  description : JsVal String
  instructions : JsVal String
  deadline : JsVal String
  status : JsVal String
  submittedAt : JsVal Nat
  reviewedAt : JsVal Nat
  explanation : JsVal String
  workLink : JsVal String
  reviewNotes : JsVal String
  reviewedBy : JsVal Nat
deriving DecidableEq

/-- Update object with every field absent. -/
def emptyUpdate : UpdateData :=
  ⟨.undef, .undef, .undef, .undef, .undef, .undef, .undef, .undef, .undef, .undef, .undef⟩

def hasValidField (u : UpdateData) : Bool :=
  u.task.isSet || u.description.isSet || u.instructions.isSet || u.deadline.isSet ||
  u.status.isSet || u.submittedAt.isSet || u.reviewedAt.isSet || u.explanation.isSet ||
  u.workLink.isSet || u.reviewNotes.isSet || u.reviewedBy.isSet

/-- SET for a nullable text column that the update code does not trim
(workLink, status). -/
def setOpt (cur : Option String) (v : JsVal String) : Option String :=
  match v with
  | .undef => cur
  | .null => none
  | .val s => some s

/-- SET for a nullable text column that the update code trims when the value
is truthy (description, explanation, reviewNotes). An empty string is falsy
and is stored as given, which coincides with its trim. -/
def setOptTrim (cur : Option String) (v : JsVal String) : Option String :=
  match v with
  | .undef => cur
  | .null => none
  | .val s => some (jsTrim s)

/-- SET for a nullable integer column (submittedAt, reviewedAt, reviewedBy). -/
def setOptNat (cur : Option Nat) (v : JsVal Nat) : Option Nat :=
  match v with
  | .undef => cur
  | .null => none
  | .val n => some n

/-- SET for a NOT NULL trimmed text column (task, instructions); the null case
is rejected before this is applied. -/
def setReqTrim (cur : String) (v : JsVal String) : String :=
  match v with
  | .val s => jsTrim s
  | _ => cur

/-- SET for a NOT NULL text column that is not trimmed (deadline). -/
def setReq (cur : String) (v : JsVal String) : String :=
  match v with
  | .val s => s
  | _ => cur

/-- Apply one UPDATE SET list to one row, evaluating the per-row schema
constraints: NOT NULL on task, instructions, deadline, and the CHECK on
status (which passes on NULL). Returns none on a constraint violation. -/
def applyUpd (r : WorkItemRow) (u : UpdateData) : Option WorkItemRow :=
  if u.task.isNullV || u.instructions.isNullV || u.deadline.isNullV then none
  else if !statusCheckOk (setOpt r.status u.status) then none
  else some { r with
    task := setReqTrim r.task u.task,
    description := setOptTrim r.description u.description,
    instructions := setReqTrim r.instructions u.instructions,
    deadline := setReq r.deadline u.deadline,
    status := setOpt r.status u.status,
    submittedAt := setOptNat r.submittedAt u.submittedAt,
    reviewedAt := setOptNat r.reviewedAt u.reviewedAt,
    explanation := setOptTrim r.explanation u.explanation,
    workLink := setOpt r.workLink u.workLink,
    reviewNotes := setOptTrim r.reviewNotes u.reviewNotes,
    reviewedBy := setOptNat r.reviewedBy u.reviewedBy }

/-- The SQL `UPDATE work_items SET ... WHERE id = ?`: every matching row is
rewritten; any constraint violation (NOT NULL, CHECK, foreign key on
reviewedBy) aborts the statement with an error and leaves the table as it
was. -/
def runUpdate (st : DbState) (id : Nat) (u : UpdateData) : Except String DbState :=
  if st.items.any (fun r => r.id == id && ((applyUpd r u).isNone ||
      !fkReviewedByOk st ((applyUpd r u).getD r))) then
    .error "SQLITE_CONSTRAINT"
  else
    .ok { st with items := st.items.map (fun r => if r.id == id then (applyUpd r u).getD r else r) }

/-- WorkItem.prototype.update (WorkItem.js 166-195): filter to the allow list,
throw when nothing remains, run the UPDATE, re-read the row. -/
def itemUpdate (st : DbState) (id : Nat) (u : UpdateData) :
    Except String (DbState × Option WorkItemRow) :=
  if !hasValidField u then .error "No valid fields to update"
  else
    match runUpdate st id u with
    | .error e => .error e
    | .ok st2 => .ok (st2, findItem st2 id)

/-- WorkItem.prototype.approve (WorkItem.js 267-281). -/
def itemApprove (st : DbState) (id : Nat) (now : Nat) (reviewNotes : String)
    (reviewedBy : Nat) : Except String (DbState × Option WorkItemRow) :=
  itemUpdate st id { emptyUpdate with
    status := .val "approved", reviewedAt := .val now,
    reviewNotes := .val reviewNotes, reviewedBy := .val reviewedBy }

/-- WorkItem.prototype.reject (WorkItem.js 283-304): review notes are
required; the rejected state clears submittedAt, explanation and workLink by
writing explicit nulls through the generic update. -/
def itemReject (st : DbState) (id : Nat) (now : Nat) (reviewNotes : String)
    (reviewedBy : Nat) : Except String (DbState × Option WorkItemRow) :=
  if reviewNotes == "" then .error "Review notes are required when rejecting work"
  else itemUpdate st id { emptyUpdate with
    status := .val "rejected", reviewedAt := .val now,
    reviewNotes := .val reviewNotes, reviewedBy := .val reviewedBy,
    submittedAt := .null, explanation := .null, workLink := .null }

/-- Argument object of WorkItem.prototype.markCompleted. -/
structure CompletionData where
  explanation : Option String
  workLink : Option String
deriving DecidableEq

/-- WorkItem.prototype.markCompleted (WorkItem.js 206-265): explanation
required and non-blank; a truthy workLink with a truthy trim must pass the
URL regex; then a direct UPDATE sets status, submittedAt, explanation and
workLink on the row. -/
def markCompleted (st : DbState) (id : Nat) (now : Nat) (cd : CompletionData) :
    Except String (DbState × Option WorkItemRow) :=
  if !(strOptTruthy cd.explanation) || (jsTrim (cd.explanation.getD "") == "") then
    .error "Explanation is required to mark task as completed"
  else if strOptTruthy cd.workLink && !(jsTrim (cd.workLink.getD "") == "") &&
      !urlRegexTest (jsTrim (cd.workLink.getD "")) then
    .error "Please provide a valid URL"
  else if !(st.items.any (fun r => r.id == id)) then
    .error "Work item not found or no changes made"
  else
    let newWl : Option String :=
      if strOptTruthy cd.workLink then some (jsTrim (cd.workLink.getD "")) else none
    let st2 : DbState := { st with items := st.items.map (fun r =>
      if r.id == id then
        { r with status := some "submitted", submittedAt := some now,
                 explanation := some (jsTrim (cd.explanation.getD "")), workLink := newWl }
      else r) }
    .ok (st2, findItem st2 id)

/-- Argument object of WorkItem.create. -/
structure CreateData where
  workerId : Nat
  task : String
  description : String
  instructions : String
  deadline : String
  assignedBy : Nat
  status : String
  workLink : Option String
deriving DecidableEq

/-- WorkItem.create (WorkItem.js 22-63): length and required-field checks,
status enum check, optional workLink URL check, then the INSERT, which the
store rejects when a referenced user does not exist (foreign keys are on).
The INSERT does not include the workLink column, so a fresh row has NULL
workLink.  A Nat id or a String field models the JavaScript falsy check as
0 or the empty string. -/
def itemCreate (st : DbState) (now : Nat) (d : CreateData) :
    Except String (DbState × Option WorkItemRow) :=
  if 200 < d.task.length then
    .error "Task cannot be longer than 200 characters"
  else if d.workerId == 0 || d.task == "" || d.instructions == "" ||
      d.deadline == "" || d.assignedBy == 0 then
    .error "All required fields must be provided"
  else if !(validStatuses.contains d.status) then
    .error "Status must be pending, submitted, approved, or rejected"
  else if strOptTruthy d.workLink && !urlRegexTest (d.workLink.getD "") then
    .error "Please provide a valid URL"
  else if !(userExists st d.workerId) || !(userExists st d.assignedBy) then
    .error "Failed to create work item: FOREIGN KEY constraint failed"
  else
    let row : WorkItemRow :=
      { id := st.nextId, workerId := d.workerId, task := jsTrim d.task,
        description := some (jsTrim d.description), instructions := jsTrim d.instructions,
        deadline := d.deadline, status := some d.status, assignedAt := now,
        submittedAt := none, reviewedAt := none, explanation := none,
        workLink := none, reviewNotes := none, assignedBy := d.assignedBy,
        reviewedBy := none }
    .ok ({ st with items := st.items ++ [row], nextId := st.nextId + 1 }, some row)

/-- Hard delete (WorkItem.prototype.delete, WorkItem.js 197-204). -/
def itemDelete (st : DbState) (id : Nat) : DbState :=
  { st with items := st.items.filter (fun r => !(r.id == id)) }

/- ===== Side-effect ports (work.js 9-96) ===== -/

/-- Ambient state consulted by sendTaskNotification: the global transporter,
the global emailWorking flag, and whether an attempted sendMail call fails. -/
structure EmailEnv where
  transporterConfigured : Bool
  emailWorking : Bool
  sendFails : Bool
deriving DecidableEq

/-- Result object of sendTaskNotification. -/
structure NotifyResult where
  success : Bool
  reason : Option String
deriving DecidableEq

/-- sendTaskNotification (work.js 9-33): every branch, including the caught
sendMail failure, returns a result object; the function has no throw path. -/
def sendTaskNotification (env : EmailEnv) (recipient subject text : String) : NotifyResult :=
  let _ := recipient
  let _ := subject
  let _ := text
  if !env.transporterConfigured then { success := false, reason := some "Email not configured" }
  else if !env.emailWorking then { success := false, reason := some "Email service not working" }
  else if env.sendFails then { success := false, reason := some "sendMail error" }
  else { success := true, reason := none }

/-- Ambient configuration consulted by createCalendarEvent. -/
structure CalendarEnv where
  googleConfigured : Bool
  insertFails : Bool
deriving DecidableEq

/-- Observable outcome of createCalendarEvent; the route discards it. -/
inductive CalendarOutcome where
  | skippedNoTokens
  | skippedUnconfigured
  | insertFailedCaught
  | created
deriving DecidableEq

/-- createCalendarEvent (work.js 35-96): silently no-ops without linked
tokens or Google configuration; a failing events.insert is caught and
logged. The token lookup reads the users table of the store. -/
def createCalendarEvent (env : CalendarEnv) (st : DbState) (uid : Nat) : CalendarOutcome :=
  match st.users.find? (fun u => u.id == uid) with
  | none => .skippedNoTokens
  | some u =>
    match u.googleAccessToken, u.googleRefreshToken with
    | some _, some _ =>
      if !env.googleConfigured then .skippedUnconfigured
      else if env.insertFails then .insertFailedCaught
      else .created
    | _, _ => .skippedNoTokens

/-- Both side-effect environments together. -/
structure SideEnv where
  email : EmailEnv
  calendar : CalendarEnv
deriving DecidableEq

/- ===== Route layer (src/routes/work.js) ===== -/

/-- Response of one work route, classified by the error taxonomy of the
specification. In the code: ok is the 200 res.json with message and item;
validationError and conflictError are the explicit res.status(400) branches
(malformed or missing input, versus a current-state precondition failure);
notFoundError is res.status(404); forbiddenError is res.status(403) (either
the requireAdmin middleware or the inline ownership check); serverError is
the catch-all res.status(500) reached when the model layer throws; statsOk
is the 200 aggregate-count payload of the stats handler. -/
inductive RouteResult where
  | ok (msg : String) (item : Option WorkItemRow)
  | statsOk (total pending submitted approved rejected : Nat)
  | validationError (msg : String)
  | notFoundError (msg : String)
  | forbiddenError (msg : String)
  | conflictError (msg : String)
  | serverError (msg : String)
deriving DecidableEq

def RouteResult.isOk : RouteResult → Bool
  | .ok _ _ => true
  | .statsOk _ _ _ _ _ => true
  | _ => false

/-- Body of POST /assign; a missing description is none, a missing workerId
is 0 and other missing strings are empty (JavaScript falsy). -/
structure AssignBody where
  workerId : Nat
  task : String
  description : Option String
  instructions : String
  deadline : String
deriving DecidableEq

/-- POST /assign (work.js 157-210): requireAdmin middleware, required-field
check, WorkItem.create, then the notification and calendar side effects for
the worker looked up afterwards; their results are discarded and the
response carries only the message and the created item. There is no
explicit existence or activity check on the worker before creation. -/
def assignRoute (env : SideEnv) (now : Nat) (p : Actor) (st : DbState) (b : AssignBody) :
    RouteResult × DbState :=
  if !(p.role == "admin") then (.forbiddenError "Admin access required", st)
  else if b.workerId == 0 || b.task == "" || b.instructions == "" || b.deadline == "" then
    (.validationError "WorkerId, task, instructions, and deadline are required", st)
  else
    match itemCreate st now
      { workerId := b.workerId, task := b.task, description := b.description.getD "",
        instructions := b.instructions, deadline := b.deadline, assignedBy := p.id,
        status := "pending", workLink := none } with
    | .error e => (.serverError e, st)
    | .ok (st2, rowOpt) =>
      match st2.users.find? (fun u => u.id == b.workerId) with
      | some w =>
        let _ := sendTaskNotification env.email w.email "New Task Assigned - TaskPilot" b.task
        let _ := createCalendarEvent env.calendar st2 w.id
        (.ok "Task assigned successfully" rowOpt, st2)
      | none => (.ok "Task assigned successfully" rowOpt, st2)

/-- PUT /complete/:id (work.js 212-256): explanation required first, then
existence, then the assignee-or-admin check, then the already-submitted or
already-approved precondition, then markCompleted; a markCompleted throw
(such as a malformed workLink) reaches the catch-all 500. -/
def completeRoute (now : Nat) (p : Actor) (st : DbState) (id : Nat)
    (explanation workLink : Option String) : RouteResult × DbState :=
  if !(strOptTruthy explanation) || (jsTrim (explanation.getD "") == "") then
    (.validationError "Explanation is required", st)
  else
    match findItem st id with
    | none => (.notFoundError "Work item not found", st)
    | some item =>
      if !(p.role == "admin") && !(p.id == item.workerId) then
        (.forbiddenError "Access denied", st)
      else if item.status == some "submitted" || item.status == some "approved" then
        (.conflictError "Task is already completed or under review", st)
      else
        let wl : Option String :=
          match workLink with
          | some w => if jsTrim w == "" then none else some (jsTrim w)
          | none => none
        match markCompleted st id now
          { explanation := some (jsTrim (explanation.getD "")), workLink := wl } with
        | .error _ => (.serverError "Server error while completing task", st)
        | .ok (st2, rowOpt) => (.ok "Task submitted for review successfully" rowOpt, st2)

/-- PUT /approve/:id (work.js 258-302): requireAdmin middleware, existence,
submitted precondition, WorkItem.approve, then a discarded notification. -/
def approveRoute (env : SideEnv) (now : Nat) (p : Actor) (st : DbState) (id : Nat)
    (reviewNotes : Option String) : RouteResult × DbState :=
  if !(p.role == "admin") then (.forbiddenError "Admin access required", st)
  else
    match findItem st id with
    | none => (.notFoundError "Work item not found", st)
    | some item =>
      if !(item.status == some "submitted") then
        (.conflictError "Work item must be submitted for review first", st)
      else
        match itemApprove st id now (reviewNotes.getD "") p.id with
        | .error e => (.serverError e, st)
        | .ok (st2, rowOpt) =>
          let _ :=
            match st2.users.find? (fun u => u.id == item.workerId) with
            | some w => some (sendTaskNotification env.email w.email "Task Approved - TaskPilot" item.task)
            | none => none
          (.ok "Work approved successfully" rowOpt, st2)

/-- PUT /reject/:id (work.js 304-355): requireAdmin middleware, then the
minimum-length review-notes check, then existence, then the submitted
precondition, then WorkItem.reject, then a discarded notification. -/
def rejectRoute (env : SideEnv) (now : Nat) (p : Actor) (st : DbState) (id : Nat)
    (reviewNotes : Option String) : RouteResult × DbState :=
  if !(p.role == "admin") then (.forbiddenError "Admin access required", st)
  else if !(strOptTruthy reviewNotes) || (jsTrim (reviewNotes.getD "")).length < 10 then
    (.validationError "Detailed review notes are required when rejecting work (minimum 10 characters)", st)
  else
    match findItem st id with
    | none => (.notFoundError "Work item not found", st)
    | some item =>
      if !(item.status == some "submitted") then
        (.conflictError "Work item must be submitted for review first", st)
      else
        match itemReject st id now (jsTrim (reviewNotes.getD "")) p.id with
        | .error e => (.serverError e, st)
        | .ok (st2, rowOpt) =>
          let _ :=
            match st2.users.find? (fun u => u.id == item.workerId) with
            | some w => some (sendTaskNotification env.email w.email "Work Incomplete - TaskPilot" item.task)
            | none => none
          (.ok "Work rejected and returned for revision" rowOpt, st2)

/-- PUT /:id (work.js 357-374): requireAdmin middleware, existence, then the
generic WorkItem.update with the raw request body; the body is not validated
beyond the allow list, and a model-layer throw reaches the catch-all 500. -/
def updateRoute (p : Actor) (st : DbState) (id : Nat) (u : UpdateData) :
    RouteResult × DbState :=
  if !(p.role == "admin") then (.forbiddenError "Admin access required", st)
  else
    match findItem st id with
    | none => (.notFoundError "Work item not found", st)
    | some _ =>
      match itemUpdate st id u with
      | .error e => (.serverError e, st)
      | .ok (st2, rowOpt) => (.ok "Work item updated successfully" rowOpt, st2)

/-- DELETE /:id (work.js 376-390). -/
def deleteRoute (p : Actor) (st : DbState) (id : Nat) : RouteResult × DbState :=
  if !(p.role == "admin") then (.forbiddenError "Admin access required", st)
  else
    match findItem st id with
    | none => (.notFoundError "Work item not found", st)
    | some _ => (.ok "Work item deleted successfully" none, itemDelete st id)

def countWithStatus (st : DbState) (s : String) : Nat :=
  (st.items.filter (fun r => r.status == some s)).length

/-- GET /stats handler body (work.js 392-411): total and per-status counts. -/
def statsRoute (p : Actor) (st : DbState) : RouteResult × DbState :=
  if !(p.role == "admin") then (.forbiddenError "Admin access required", st)
  else
    (.statsOk st.items.length (countWithStatus st "pending") (countWithStatus st "submitted")
      (countWithStatus st "approved") (countWithStatus st "rejected"), st)

/- ===== GET dispatch (Express registration order, work.js 98-411) ===== -/

/-- One segment of an Express route pattern. -/
inductive PathSeg where
  | lit (s : String)
  | param
deriving DecidableEq

def segMatches : PathSeg → String → Bool
  | .lit s, t => s == t
  | .param, _ => true

def pathMatches : List PathSeg → List String → Bool
  | [], [] => true
  | p :: ps, t :: ts => segMatches p t && pathMatches ps ts
  | _, _ => false

/-- The GET handlers of the work router. -/
inductive WorkGetRoute where
  | listAll
  | submittedList
  | workerItems
  | itemById
  | statsAgg
deriving DecidableEq

/-- The GET routes of src/routes/work.js in registration order: / (line 98),
/submitted (113), /worker/:workerId (123), /:id (139), /stats (392). -/
def workGetRoutes : List (List PathSeg × WorkGetRoute) :=
  [([], .listAll),
   ([.lit "submitted"], .submittedList),
   ([.lit "worker", .param], .workerItems),
   ([.param], .itemById),
   ([.lit "stats"], .statsAgg)]

/-- Express dispatch: the first registered route whose pattern matches the
path receives the request. -/
def dispatchGet (path : List String) : Option WorkGetRoute :=
  (workGetRoutes.find? (fun e => pathMatches e.1 path)).map (fun e => e.2)

/-- Decimal reading of a character list: some value when every character is
a digit and the list is nonempty, none otherwise. -/
def decimalNat? (cs : List Char) : Option Nat :=
  if cs = [] then none
  else if cs.all (fun c => 48 ≤ c.toNat && c.toNat ≤ 57) then
    some (cs.foldl (fun n c => n * 10 + (c.toNat - 48)) 0)
  else none

/-- Comparison of the TEXT :id route parameter against the INTEGER id column
in `WHERE wi.id = ?`: SQLite applies numeric affinity to the text operand, so
a numeric parameter is converted and compared as an integer while a
non-numeric parameter converts to nothing and matches no row. -/
def textIdMatches (s : String) (n : Nat) : Bool :=
  decimalNat? s.data == some n

/-- GET /:id handler (work.js 139-155): findById with the text parameter,
404 when absent, then the admin-or-owner check. -/
def getByIdRoute (p : Actor) (st : DbState) (idText : String) : RouteResult :=
  match st.items.find? (fun r => textIdMatches idText r.id) with
  | none => .notFoundError "Work item not found"
  | some item =>
    if !(p.role == "admin") && !(p.id == item.workerId) then .forbiddenError "Access denied"
    else .ok "" (some item)

/- ===== Operation sequences ===== -/

/-- One invocation of a lifecycle route. -/
inductive LifecycleOp where
  | assign (p : Actor) (b : AssignBody)
  | complete (p : Actor) (id : Nat) (explanation workLink : Option String)
  | approve (p : Actor) (id : Nat) (notes : Option String)
  | reject (p : Actor) (id : Nat) (notes : Option String)
  | update (p : Actor) (id : Nat) (u : UpdateData)
  | del (p : Actor) (id : Nat)
deriving DecidableEq

def applyOp (env : SideEnv) (now : Nat) (st : DbState) : LifecycleOp → RouteResult × DbState
  | .assign p b => assignRoute env now p st b
  | .complete p id e w => completeRoute now p st id e w
  | .approve p id n => approveRoute env now p st id n
  | .reject p id n => rejectRoute env now p st id n
  | .update p id u => updateRoute p st id u
  | .del p id => deleteRoute p st id

/-- Run a sequence of lifecycle operations, observing only the store. -/
def runOps (env : SideEnv) (now : Nat) (st : DbState) : List LifecycleOp → DbState
  | [] => st
  | op :: rest => runOps env now (applyOp env now st op).2 rest

def isGenericUpdate : LifecycleOp → Bool
  | .update _ _ _ => true
  | _ => false

/- ===== Observed invariants ===== -/

/-- Strict status invariant claimed by the specification: the status of every
row is exactly one of the four enumerated values. -/
def strictStatusInv (st : DbState) : Bool :=
  st.items.all (fun r => match r.status with
    | some v => validStatuses.contains v
    | none => false)

/-- Status invariant actually maintained by the store: every status is NULL
or one of the four enumerated values. -/
def statusInv (st : DbState) : Bool :=
  st.items.all (fun r => statusCheckOk r.status)

/-- WorkLink invariant: a non-null workLink passes the URL regex. -/
def workLinkInv (st : DbState) : Bool :=
  st.items.all (fun r => match r.workLink with
    | none => true
    | some w => urlRegexTest w)

/- ===== Concrete fixtures used to evaluate the model ===== -/

def adminUser : UserRow :=
  ⟨1, "Admin", "admin@taskpilot.com", "admin", true, none, none⟩

def workerUser : UserRow :=
  ⟨2, "Worker", "worker@taskpilot.com", "worker", true, none, none⟩

def adminActor : Actor := ⟨1, "admin"⟩

def workerActor : Actor := ⟨2, "worker"⟩

def outsiderActor : Actor := ⟨3, "worker"⟩

def envOff : SideEnv := ⟨⟨false, false, false⟩, ⟨false, false⟩⟩

def envOn : SideEnv := ⟨⟨true, true, false⟩, ⟨true, false⟩⟩

def sampleSubmitted : WorkItemRow :=
  ⟨1, 2, "Write report", some "", "Use template A", "2025-01-10T00:00", some "submitted",
   0, some 5, none, some "Done", some "https://docs.example.com/x", none, 1, none⟩

def samplePending : WorkItemRow :=
  { sampleSubmitted with
    status := some "pending", submittedAt := none,
    explanation := none, workLink := none }

def sampleRejected : WorkItemRow :=
  { samplePending with
    status := some "rejected", reviewedAt := some 6,
    reviewNotes := some "Needs more detail", reviewedBy := some 1 }

def sampleApproved : WorkItemRow :=
  { sampleSubmitted with
    status := some "approved", reviewedAt := some 7,
    reviewNotes := some "Good", reviewedBy := some 1 }

def dbWith (r : WorkItemRow) : DbState := ⟨[adminUser, workerUser], [r], 2⟩

def dbEmpty : DbState := ⟨[adminUser, workerUser], [], 1⟩

def inactiveUser : UserRow :=
  ⟨4, "Dormant", "dormant@taskpilot.com", "worker", false, none, none⟩

def dbInactive : DbState := ⟨[adminUser, inactiveUser], [], 1⟩

/-- Update object that sets only the status field to JSON null. -/
def statusNullUpdate : UpdateData :=
  { emptyUpdate with status := JsVal.null }

/-- Update object that sets only the workLink field to a plain string. -/
def badLinkUpdate : UpdateData :=
  { emptyUpdate with workLink := JsVal.val "not-a-url" }

/-- Assign body targeting a worker id that is not in the users table of
dbEmpty. -/
def ghostAssign : AssignBody := ⟨5, "T", none, "I", "D"⟩

/-- Assign body targeting the inactive worker of dbInactive. -/
def dormantAssign : AssignBody := ⟨4, "T", none, "I", "D"⟩

/-- Assign body targeting the existing active worker of dbEmpty. -/
def okAssign : AssignBody := ⟨2, "T", none, "I", "D"⟩

/- ===== Helper lemmas: trim idempotence ===== -/

theorem dropWhile_dropWhile {α : Type} (p : α → Bool) (l : List α) :
    (l.dropWhile p).dropWhile p = l.dropWhile p := by
  induction l with
  | nil => rfl
  | cons a t ih =>
    by_cases h : p a = true
    · rw [List.dropWhile_cons, if_pos h, ih]
    · rw [List.dropWhile_cons, if_neg h, List.dropWhile_cons, if_neg h]

theorem dropWhile_head_false {α : Type} (p : α → Bool) :
    ∀ (l : List α) (a : α) (t : List α), l.dropWhile p = a :: t → p a = false := by
  intro l
  induction l with
  | nil => intro a t h; cases h
  | cons b l ih =>
    intro a t h
    rw [List.dropWhile_cons] at h
    by_cases hb : p b = true
    · rw [if_pos hb] at h
      exact ih a t h
    · rw [if_neg hb] at h
      cases h
      simpa using hb

theorem jsTrimList_idem (cs : List Char) : jsTrimList (jsTrimList cs) = jsTrimList cs := by
  unfold jsTrimList
  have h1 : ((((cs.dropWhile jsTrimmable).reverse.dropWhile jsTrimmable).reverse).dropWhile
      jsTrimmable) = ((cs.dropWhile jsTrimmable).reverse.dropWhile jsTrimmable).reverse := by
    cases hrev : ((cs.dropWhile jsTrimmable).reverse.dropWhile jsTrimmable).reverse with
    | nil => rfl
    | cons a t =>
      have hsuff : (cs.dropWhile jsTrimmable).reverse.dropWhile jsTrimmable <:+
          (cs.dropWhile jsTrimmable).reverse := List.dropWhile_suffix jsTrimmable
      have hpre : ((cs.dropWhile jsTrimmable).reverse.dropWhile jsTrimmable).reverse <+:
          cs.dropWhile jsTrimmable := by
        have h2 := List.reverse_prefix.mpr hsuff
        rwa [List.reverse_reverse] at h2
      rw [hrev] at hpre
      obtain ⟨u, hu⟩ := hpre
      have hfalse : jsTrimmable a = false := by
        apply dropWhile_head_false jsTrimmable cs a (t ++ u)
        rw [← hu]
        rfl
      rw [List.dropWhile_cons, if_neg]
      simp [hfalse]
  rw [h1, List.reverse_reverse, dropWhile_dropWhile]

theorem jsTrim_idem (s : String) : jsTrim (jsTrim s) = jsTrim s := by
  unfold jsTrim
  rw [jsTrimList_idem]

/- ===== Helper lemmas: store update machinery ===== -/

theorem any_false_of {α : Type} (l : List α) (f : α → Bool)
    (h : ∀ a ∈ l, f a = false) : l.any f = false := by
  rw [List.any_eq_false]
  intro a ha
  simp [h a ha]

theorem applyUpd_some_statusOk {r : WorkItemRow} {u : UpdateData} {r1 : WorkItemRow}
    (h : applyUpd r u = some r1) : statusCheckOk r1.status = true := by
  unfold applyUpd at h
  split at h
  · cases h
  · split at h
    next hck =>
      cases h
    next hck =>
      cases h
      simpa using hck

theorem applyUpd_some_id {r : WorkItemRow} {u : UpdateData} {r1 : WorkItemRow}
    (h : applyUpd r u = some r1) : r1.id = r.id := by
  unfold applyUpd at h
  split at h
  · cases h
  · split at h
    · cases h
    · cases h
      rfl

theorem getD_applyUpd_id (r : WorkItemRow) (u : UpdateData) :
    ((applyUpd r u).getD r).id = r.id := by
  cases h : applyUpd r u with
  | none => rfl
  | some r1 => exact applyUpd_some_id h

theorem find?_map_upd (l : List WorkItemRow) (id : Nat) (g : WorkItemRow → WorkItemRow)
    (hid : ∀ r, (g r).id = r.id) :
    (l.map (fun r => if r.id == id then g r else r)).find? (fun r => r.id == id) =
      (l.find? (fun r => r.id == id)).map (fun r => if r.id == id then g r else r) := by
  induction l with
  | nil => rfl
  | cons a t ih =>
    rw [List.map_cons, List.find?_cons, List.find?_cons]
    by_cases h : (a.id == id) = true
    · have hga : ((g a).id == id) = true := by rw [hid]; exact h
      rw [if_pos h, hga, h]
      have hp : a.id = id := by simpa using h
      simp [hp]
    · have hf : (a.id == id) = false := by simpa using h
      rw [if_neg h, hf]
      simpa using ih

theorem statusCheckOk_pending : statusCheckOk (some "pending") = true := by decide

theorem statusCheckOk_submitted : statusCheckOk (some "submitted") = true := by decide

theorem statusCheckOk_approved : statusCheckOk (some "approved") = true := by decide

theorem statusCheckOk_rejected : statusCheckOk (some "rejected") = true := by decide

theorem beq_empty_false_of_len {s : String} {n : Nat} (hn : 0 < n)
    (h : n ≤ s.length) : (s == "") = false := by
  cases hb : s == "" with
  | false => rfl
  | true =>
    have hs : s = "" := by simpa using hb
    subst hs
    have hz : ("" : String).length = 0 := by decide
    omega

theorem runUpdate_ok_of (st : DbState) (id : Nat) (u : UpdateData)
    (hsome : ∀ r, (applyUpd r u).isNone = false)
    (hfk : ∀ r, fkReviewedByOk st ((applyUpd r u).getD r) = true) :
    runUpdate st id u = .ok { st with
      items := st.items.map (fun r => if r.id == id then (applyUpd r u).getD r else r) } := by
  unfold runUpdate
  have hany : (st.items.any fun r => r.id == id &&
      ((applyUpd r u).isNone || !fkReviewedByOk st ((applyUpd r u).getD r))) = false := by
    apply any_false_of
    intro r _
    rw [hsome r, hfk r]
    simp
  rw [hany]
  simp

theorem rejectRoute_submitted_eq (env : SideEnv) (now : Nat) (p : Actor) (st : DbState)
    (id : Nat) (s : String) (item : WorkItemRow)
    (hrole : p.role = "admin")
    (hfind : findItem st id = some item)
    (hstat : item.status = some "submitted")
    (hlen : 10 ≤ (jsTrim s).length)
    (hfk : userExists st p.id = true) :
    rejectRoute env now p st id (some s) =
      (.ok "Work rejected and returned for revision" (some { item with
        status := some "rejected", submittedAt := none, reviewedAt := some now,
        explanation := none, workLink := none, reviewNotes := some (jsTrim s),
        reviewedBy := some p.id }),
       { st with items := st.items.map (fun r =>
          if r.id == id then (applyUpd r { emptyUpdate with
            status := JsVal.val "rejected", submittedAt := JsVal.null,
            reviewedAt := JsVal.val now, explanation := JsVal.null,
            workLink := JsVal.null, reviewNotes := JsVal.val (jsTrim s),
            reviewedBy := JsVal.val p.id }).getD r else r) }) := by
  have hsne : (s == "") = false := by
    have h0 : 0 < s.length := by
      by_contra hc
      have hs : s = "" := by
        cases s with
        | mk data =>
          cases data with
          | nil => rfl
          | cons c cs => simp [String.length] at hc
      subst hs
      have hz : jsTrim "" = "" := by decide
      rw [hz] at hlen
      have : ("" : String).length = 0 := by decide
      omega
    exact beq_empty_false_of_len h0 (Nat.le_refl _)
  have htne : (jsTrim s == "") = false := by
    apply beq_empty_false_of_len (by omega : 0 < 10) hlen
  unfold rejectRoute
  rw [hrole]
  rw [if_neg (by decide)]
  rw [if_neg (by simp [strOptTruthy, hsne]; omega)]
  rw [hfind]
  dsimp only
  rw [if_neg (by simp [hstat])]
  unfold itemReject
  simp only [Option.getD_some]
  rw [htne]
  rw [if_neg (by decide)]
  unfold itemUpdate
  rw [if_neg (by simp [hasValidField, emptyUpdate, JsVal.isSet])]
  rw [runUpdate_ok_of st id _ ?hsome ?hfk2]
  case hsome =>
    intro r
    simp [applyUpd, JsVal.isNullV, emptyUpdate, setOpt, statusCheckOk, validStatuses]
  case hfk2 =>
    intro r
    simp [applyUpd, JsVal.isNullV, emptyUpdate, setOpt, setOptNat, statusCheckOk,
      validStatuses, fkReviewedByOk, hfk]
  dsimp only
  unfold findItem at hfind ⊢
  dsimp only
  rw [find?_map_upd _ _ _ (fun r => getD_applyUpd_id r _)]
  rw [hfind]
  have hidm : (item.id == id) = true := by
    have h2 := List.find?_some hfind
    simpa using h2
  rw [Option.map_some', if_pos hidm]
  simp [applyUpd, JsVal.isNullV, emptyUpdate, setOpt, setOptTrim, setOptNat,
    setReq, setReqTrim, statusCheckOk, validStatuses, jsTrim_idem]

/- ===== Helper lemmas: error shapes of the review routes ===== -/

theorem rejectRoute_not_admin (env : SideEnv) (now : Nat) (p : Actor) (st : DbState)
    (id : Nat) (notes : Option String) (hrole : p.role ≠ "admin") :
    rejectRoute env now p st id notes = (.forbiddenError "Admin access required", st) := by
  unfold rejectRoute
  rw [if_pos]
  simp [hrole]

theorem rejectRoute_bad_notes (env : SideEnv) (now : Nat) (p : Actor) (st : DbState)
    (id : Nat) (notes : Option String) (hrole : p.role = "admin")
    (hbad : strOptTruthy notes = false ∨ (jsTrim (notes.getD "")).length < 10) :
    rejectRoute env now p st id notes =
      (.validationError "Detailed review notes are required when rejecting work (minimum 10 characters)", st) := by
  unfold rejectRoute
  rw [hrole, if_neg (by decide), if_pos]
  rcases hbad with h | h
  · simp [h]
  · simp [h]

theorem rejectRoute_not_found (env : SideEnv) (now : Nat) (p : Actor) (st : DbState)
    (id : Nat) (s : String) (hrole : p.role = "admin")
    (hlen : 10 ≤ (jsTrim s).length)
    (hfind : findItem st id = none) :
    rejectRoute env now p st id (some s) = (.notFoundError "Work item not found", st) := by
  have hsne : (s == "") = false := by
    cases hb : s == "" with
    | false => rfl
    | true =>
      have hs : s = "" := by simpa using hb
      subst hs
      have hz : jsTrim "" = "" := by decide
      rw [hz] at hlen
      have h0 : ("" : String).length = 0 := by decide
      omega
  unfold rejectRoute
  rw [hrole, if_neg (by decide), if_neg (by simp [strOptTruthy, hsne]; omega), hfind]

theorem rejectRoute_conflict (env : SideEnv) (now : Nat) (p : Actor) (st : DbState)
    (id : Nat) (s : String) (item : WorkItemRow) (hrole : p.role = "admin")
    (hlen : 10 ≤ (jsTrim s).length)
    (hfind : findItem st id = some item)
    (hstat : item.status ≠ some "submitted") :
    rejectRoute env now p st id (some s) =
      (.conflictError "Work item must be submitted for review first", st) := by
  have hsne : (s == "") = false := by
    cases hb : s == "" with
    | false => rfl
    | true =>
      have hs : s = "" := by simpa using hb
      subst hs
      have hz : jsTrim "" = "" := by decide
      rw [hz] at hlen
      have h0 : ("" : String).length = 0 := by decide
      omega
  unfold rejectRoute
  rw [hrole, if_neg (by decide), if_neg (by simp [strOptTruthy, hsne]; omega), hfind]
  dsimp only
  rw [if_pos]
  simp [hstat]

theorem approveRoute_not_admin (env : SideEnv) (now : Nat) (p : Actor) (st : DbState)
    (id : Nat) (notes : Option String) (hrole : p.role ≠ "admin") :
    approveRoute env now p st id notes = (.forbiddenError "Admin access required", st) := by
  unfold approveRoute
  rw [if_pos]
  simp [hrole]

theorem approveRoute_not_found (env : SideEnv) (now : Nat) (p : Actor) (st : DbState)
    (id : Nat) (notes : Option String) (hrole : p.role = "admin")
    (hfind : findItem st id = none) :
    approveRoute env now p st id notes = (.notFoundError "Work item not found", st) := by
  unfold approveRoute
  rw [hrole, if_neg (by decide), hfind]

theorem approveRoute_conflict (env : SideEnv) (now : Nat) (p : Actor) (st : DbState)
    (id : Nat) (notes : Option String) (item : WorkItemRow) (hrole : p.role = "admin")
    (hfind : findItem st id = some item)
    (hstat : item.status ≠ some "submitted") :
    approveRoute env now p st id notes =
      (.conflictError "Work item must be submitted for review first", st) := by
  unfold approveRoute
  rw [hrole, if_neg (by decide), hfind]
  dsimp only
  rw [if_pos]
  simp [hstat]

/- ===== Helper lemmas: shapes of the complete route ===== -/

theorem completeRoute_bad_explanation (now : Nat) (p : Actor) (st : DbState) (id : Nat)
    (explanation workLink : Option String)
    (hbad : strOptTruthy explanation = false ∨ jsTrim (explanation.getD "") = "") :
    completeRoute now p st id explanation workLink =
      (.validationError "Explanation is required", st) := by
  unfold completeRoute
  rw [if_pos]
  rcases hbad with h | h
  · simp [h]
  · simp [h]

theorem completeRoute_not_found (now : Nat) (p : Actor) (st : DbState) (id : Nat)
    (e : String) (workLink : Option String)
    (he : (e == "") = false) (het : (jsTrim e == "") = false)
    (hfind : findItem st id = none) :
    completeRoute now p st id (some e) workLink =
      (.notFoundError "Work item not found", st) := by
  unfold completeRoute
  rw [if_neg (by simp [strOptTruthy, he, het]), hfind]

theorem completeRoute_forbidden (now : Nat) (p : Actor) (st : DbState) (id : Nat)
    (e : String) (workLink : Option String) (item : WorkItemRow)
    (he : (e == "") = false) (het : (jsTrim e == "") = false)
    (hfind : findItem st id = some item)
    (hrole : p.role ≠ "admin") (hown : p.id ≠ item.workerId) :
    completeRoute now p st id (some e) workLink =
      (.forbiddenError "Access denied", st) := by
  unfold completeRoute
  rw [if_neg (by simp [strOptTruthy, he, het]), hfind]
  dsimp only
  rw [if_pos]
  simp [hrole, hown]

theorem completeRoute_conflict (now : Nat) (p : Actor) (st : DbState) (id : Nat)
    (e : String) (workLink : Option String) (item : WorkItemRow)
    (he : (e == "") = false) (het : (jsTrim e == "") = false)
    (hfind : findItem st id = some item)
    (hallow : p.role = "admin" ∨ p.id = item.workerId)
    (hstat : item.status = some "submitted" ∨ item.status = some "approved") :
    completeRoute now p st id (some e) workLink =
      (.conflictError "Task is already completed or under review", st) := by
  unfold completeRoute
  rw [if_neg (by simp [strOptTruthy, he, het]), hfind]
  dsimp only
  rw [if_neg]
  · rw [if_pos]
    rcases hstat with h | h
    · simp [h]
    · simp [h]
  · rcases hallow with h | h
    · simp [h]
    · simp [h]

theorem completeRoute_ok_shape (now : Nat) (p : Actor) (st : DbState) (id : Nat)
    (e : String) (workLink : Option String) (item : WorkItemRow) (wlV : Option String)
    (he : (e == "") = false) (het : (jsTrim e == "") = false)
    (hfind : findItem st id = some item)
    (hallow : (!(p.role == "admin") && !(p.id == item.workerId)) = false)
    (hstat : (item.status == some "submitted" || item.status == some "approved") = false)
    (hwl : (match workLink with
            | some w => if jsTrim w == "" then none else some (jsTrim w)
            | none => none) = wlV)
    (hwlok : wlV = none ∨ ∃ v, wlV = some v ∧ jsTrim v = v ∧ (v == "") = false ∧
      urlRegexTest v = true) :
    completeRoute now p st id (some e) workLink =
      (.ok "Task submitted for review successfully" (some { item with
        status := some "submitted", submittedAt := some now,
        explanation := some (jsTrim e), workLink := wlV }),
       { st with items := st.items.map (fun r =>
          if r.id == id then
            { r with status := some "submitted", submittedAt := some now,
                     explanation := some (jsTrim e), workLink := wlV }
          else r) }) := by
  have hmem : st.items.any (fun r => r.id == id) = true := by
    rw [List.any_eq_true]
    refine ⟨item, List.mem_of_find?_eq_some hfind, ?_⟩
    have h2 := List.find?_some hfind
    simpa using h2
  have hidm : (item.id == id) = true := by
    have h2 := List.find?_some hfind
    simpa using h2
  unfold completeRoute
  rw [if_neg (by simp [strOptTruthy, he, het]), hfind]
  dsimp only
  rw [if_neg (by simp [hallow]), if_neg (by simp [hstat])]
  simp only [Option.getD_some]
  rw [hwl]
  unfold markCompleted
  rcases hwlok with hnone | ⟨v, hv, hvt, hvne, hvurl⟩
  · subst hnone
    rw [if_neg (by simp [strOptTruthy, het, jsTrim_idem]),
        if_neg (by simp [strOptTruthy]),
        if_neg (by simp [hmem])]
    dsimp only
    simp only [strOptTruthy, Option.getD_some, jsTrim_idem, Bool.false_eq_true, if_false]
    unfold findItem at hfind ⊢
    dsimp only
    rw [find?_map_upd st.items id (fun r =>
      { r with status := some "submitted", submittedAt := some now,
               explanation := some (jsTrim e), workLink := none }) (fun r => rfl),
      hfind, Option.map_some', if_pos hidm]
  · subst hv
    rw [if_neg (by simp [strOptTruthy, het, jsTrim_idem]),
        if_neg (by simp [strOptTruthy, hvne, Option.getD_some, jsTrim_idem, hvt, hvurl]),
        if_neg (by simp [hmem])]
    dsimp only
    simp only [strOptTruthy, Option.getD_some, jsTrim_idem, hvne, hvt, Bool.not_false,
      eq_self_iff_true, if_true, Bool.false_eq_true, if_false]
    unfold findItem at hfind ⊢
    dsimp only
    rw [find?_map_upd st.items id (fun r =>
      { r with status := some "submitted", submittedAt := some now,
               explanation := some (jsTrim e), workLink := some v }) (fun r => rfl),
      hfind, Option.map_some', if_pos hidm]

/- ===== Helper lemmas: invariant preservation at the store layer ===== -/

theorem runUpdate_statusInv {st : DbState} {id : Nat} {u : UpdateData} {st2 : DbState}
    (h : runUpdate st id u = .ok st2) (hinv : statusInv st = true) :
    statusInv st2 = true := by
  unfold runUpdate at h
  split at h
  · cases h
  next hany =>
    cases h
    unfold statusInv at hinv ⊢
    rw [List.all_eq_true] at hinv ⊢
    intro r hr
    rw [List.mem_map] at hr
    obtain ⟨r0, hr0, heq⟩ := hr
    by_cases hid : (r0.id == id) = true
    · rw [if_pos hid] at heq
      cases happ : applyUpd r0 u with
      | none =>
        exfalso
        apply hany
        rw [List.any_eq_true]
        exact ⟨r0, hr0, by simp [hid, happ]⟩
      | some r1 =>
        rw [happ] at heq
        simp only [Option.getD_some] at heq
        rw [← heq]
        exact applyUpd_some_statusOk happ
    · rw [if_neg hid] at heq
      rw [← heq]
      exact hinv r0 hr0

theorem itemUpdate_statusInv {st : DbState} {id : Nat} {u : UpdateData} {st2 : DbState}
    {rowOpt : Option WorkItemRow}
    (h : itemUpdate st id u = .ok (st2, rowOpt)) (hinv : statusInv st = true) :
    statusInv st2 = true := by
  unfold itemUpdate at h
  split at h
  · cases h
  · split at h
    next => cases h
    next st3 heq =>
      cases h
      exact runUpdate_statusInv heq hinv

theorem markCompleted_statusInv {st : DbState} {id : Nat} {now : Nat} {cd : CompletionData}
    {st2 : DbState} {rowOpt : Option WorkItemRow}
    (h : markCompleted st id now cd = .ok (st2, rowOpt)) (hinv : statusInv st = true) :
    statusInv st2 = true := by
  unfold markCompleted at h
  split at h
  · cases h
  · split at h
    · cases h
    · split at h
      · cases h
      · cases h
        unfold statusInv at hinv ⊢
        rw [List.all_eq_true] at hinv ⊢
        intro r hr
        rw [List.mem_map] at hr
        obtain ⟨r0, hr0, heq⟩ := hr
        by_cases hid : (r0.id == id) = true
        · rw [if_pos hid] at heq
          rw [← heq]
          exact statusCheckOk_submitted
        · rw [if_neg hid] at heq
          rw [← heq]
          exact hinv r0 hr0

theorem itemCreate_statusInv {st : DbState} {now : Nat} {d : CreateData}
    {st2 : DbState} {rowOpt : Option WorkItemRow}
    (h : itemCreate st now d = .ok (st2, rowOpt)) (hinv : statusInv st = true) :
    statusInv st2 = true := by
  unfold itemCreate at h
  split at h
  · cases h
  · split at h
    · cases h
    · split at h
      next hok =>
        cases h
      next hok =>
        split at h
        · cases h
        · split at h
          · cases h
          · cases h
            unfold statusInv at hinv ⊢
            rw [List.all_eq_true] at hinv ⊢
            intro r hr
            rw [List.mem_append] at hr
            cases hr with
            | inl hmem => exact hinv r hmem
            | inr hmem =>
              rw [List.mem_singleton] at hmem
              rw [hmem]
              unfold statusCheckOk
              simpa using hok

theorem itemDelete_statusInv {st : DbState} {id : Nat}
    (hinv : statusInv st = true) : statusInv (itemDelete st id) = true := by
  unfold statusInv at hinv
  unfold itemDelete statusInv
  rw [List.all_eq_true] at hinv ⊢
  intro r hr
  rw [List.mem_filter] at hr
  exact hinv r hr.1

/- ===== Helper lemmas: workLink invariant at the store layer ===== -/

theorem applyUpd_some_workLink {r : WorkItemRow} {u : UpdateData} {r1 : WorkItemRow}
    (h : applyUpd r u = some r1) : r1.workLink = setOpt r.workLink u.workLink := by
  unfold applyUpd at h
  split at h
  · cases h
  · split at h
    · cases h
    · cases h
      rfl

theorem runUpdate_wlInv {st : DbState} {id : Nat} {u : UpdateData} {st2 : DbState}
    (hu : u.workLink = .undef ∨ u.workLink = .null)
    (h : runUpdate st id u = .ok st2) (hinv : workLinkInv st = true) :
    workLinkInv st2 = true := by
  unfold runUpdate at h
  split at h
  · cases h
  next hany =>
    cases h
    unfold workLinkInv at hinv ⊢
    rw [List.all_eq_true] at hinv ⊢
    intro r hr
    rw [List.mem_map] at hr
    obtain ⟨r0, hr0, heq⟩ := hr
    by_cases hid : (r0.id == id) = true
    · rw [if_pos hid] at heq
      cases happ : applyUpd r0 u with
      | none =>
        exfalso
        apply hany
        rw [List.any_eq_true]
        exact ⟨r0, hr0, by simp [hid, happ]⟩
      | some r1 =>
        rw [happ] at heq
        simp only [Option.getD_some] at heq
        rw [← heq]
        have hw := applyUpd_some_workLink happ
        cases hu with
        | inl h1 =>
          rw [h1] at hw
          unfold setOpt at hw
          rw [hw]
          exact hinv r0 hr0
        | inr h1 =>
          rw [h1] at hw
          unfold setOpt at hw
          rw [hw]
    · rw [if_neg hid] at heq
      rw [← heq]
      exact hinv r0 hr0

theorem markCompleted_wlInv {st : DbState} {id : Nat} {now : Nat} {cd : CompletionData}
    {st2 : DbState} {rowOpt : Option WorkItemRow}
    (hw : cd.workLink = none ∨ ∃ v, cd.workLink = some v ∧ jsTrim v = v ∧ (v == "") = false)
    (h : markCompleted st id now cd = .ok (st2, rowOpt)) (hinv : workLinkInv st = true) :
    workLinkInv st2 = true := by
  unfold markCompleted at h
  split at h
  · cases h
  · split at h
    next hurl => cases h
    next hurl =>
      split at h
      · cases h
      · cases h
        unfold workLinkInv at hinv ⊢
        rw [List.all_eq_true] at hinv ⊢
        intro r hr
        rw [List.mem_map] at hr
        obtain ⟨r0, hr0, heq⟩ := hr
        by_cases hid : (r0.id == id) = true
        · rw [if_pos hid] at heq
          rw [← heq]
          cases hw with
          | inl h1 =>
            simp [h1, strOptTruthy]
          | inr h1 =>
            obtain ⟨v, hv, hvt, hvne⟩ := h1
            have hurl2 : urlRegexTest v = true := by
              rw [hv] at hurl
              simp only [strOptTruthy, hvne, Option.getD_some, hvt, Bool.not_false,
                Bool.true_and] at hurl
              by_cases hu : urlRegexTest v = true
              · exact hu
              · exfalso
                apply hurl
                simp [hvne, hu]
            simp [hv, strOptTruthy, hvne, hvt, hurl2]
        · rw [if_neg hid] at heq
          rw [← heq]
          exact hinv r0 hr0

theorem itemCreate_wlInv {st : DbState} {now : Nat} {d : CreateData}
    {st2 : DbState} {rowOpt : Option WorkItemRow}
    (h : itemCreate st now d = .ok (st2, rowOpt)) (hinv : workLinkInv st = true) :
    workLinkInv st2 = true := by
  unfold itemCreate at h
  split at h
  · cases h
  · split at h
    · cases h
    · split at h
      · cases h
      · split at h
        · cases h
        · split at h
          · cases h
          · cases h
            unfold workLinkInv at hinv ⊢
            rw [List.all_eq_true] at hinv ⊢
            intro r hr
            rw [List.mem_append] at hr
            cases hr with
            | inl hmem => exact hinv r hmem
            | inr hmem =>
              rw [List.mem_singleton] at hmem
              rw [hmem]

theorem itemDelete_wlInv {st : DbState} {id : Nat}
    (hinv : workLinkInv st = true) : workLinkInv (itemDelete st id) = true := by
  unfold workLinkInv at hinv
  unfold itemDelete workLinkInv
  rw [List.all_eq_true] at hinv ⊢
  intro r hr
  rw [List.mem_filter] at hr
  exact hinv r hr.1

/- ===== Helper lemmas: invariant preservation at the route layer ===== -/

theorem assignRoute_statusInv (env : SideEnv) (now : Nat) (p : Actor) (st : DbState)
    (b : AssignBody) (hinv : statusInv st = true) :
    statusInv (assignRoute env now p st b).2 = true := by
  unfold assignRoute
  try dsimp only
  repeat' split
  all_goals first
    | exact hinv
    | exact itemCreate_statusInv (by assumption) hinv

theorem completeRoute_statusInv (now : Nat) (p : Actor) (st : DbState) (id : Nat)
    (explanation workLink : Option String) (hinv : statusInv st = true) :
    statusInv (completeRoute now p st id explanation workLink).2 = true := by
  unfold completeRoute
  try dsimp only
  repeat' split
  all_goals first
    | exact hinv
    | exact markCompleted_statusInv (by assumption) hinv

theorem approveRoute_statusInv (env : SideEnv) (now : Nat) (p : Actor) (st : DbState)
    (id : Nat) (notes : Option String) (hinv : statusInv st = true) :
    statusInv (approveRoute env now p st id notes).2 = true := by
  unfold approveRoute itemApprove
  try dsimp only
  repeat' split
  all_goals first
    | exact hinv
    | exact itemUpdate_statusInv (by assumption) hinv

theorem rejectRoute_statusInv (env : SideEnv) (now : Nat) (p : Actor) (st : DbState)
    (id : Nat) (notes : Option String) (hinv : statusInv st = true) :
    statusInv (rejectRoute env now p st id notes).2 = true := by
  unfold rejectRoute itemReject
  try dsimp only
  repeat' split
  all_goals try exact hinv
  all_goals rename_i st2 rowOpt heq
  all_goals split at heq
  all_goals first
    | cases heq
    | exact itemUpdate_statusInv heq hinv

theorem updateRoute_statusInv (p : Actor) (st : DbState) (id : Nat) (u : UpdateData)
    (hinv : statusInv st = true) :
    statusInv (updateRoute p st id u).2 = true := by
  unfold updateRoute
  try dsimp only
  repeat' split
  all_goals first
    | exact hinv
    | exact itemUpdate_statusInv (by assumption) hinv

theorem deleteRoute_statusInv (p : Actor) (st : DbState) (id : Nat)
    (hinv : statusInv st = true) :
    statusInv (deleteRoute p st id).2 = true := by
  unfold deleteRoute
  try dsimp only
  repeat' split
  all_goals first
    | exact hinv
    | exact itemDelete_statusInv hinv

theorem applyOp_statusInv (env : SideEnv) (now : Nat) (st : DbState) (op : LifecycleOp)
    (hinv : statusInv st = true) : statusInv (applyOp env now st op).2 = true := by
  cases op with
  | assign p b => exact assignRoute_statusInv env now p st b hinv
  | complete p id e w => exact completeRoute_statusInv now p st id e w hinv
  | approve p id n => exact approveRoute_statusInv env now p st id n hinv
  | reject p id n => exact rejectRoute_statusInv env now p st id n hinv
  | update p id u => exact updateRoute_statusInv p st id u hinv
  | del p id => exact deleteRoute_statusInv p st id hinv

theorem runOps_statusInv (env : SideEnv) (now : Nat) :
    ∀ (ops : List LifecycleOp) (st : DbState), statusInv st = true →
      statusInv (runOps env now st ops) = true := by
  intro ops
  induction ops with
  | nil => intro st hinv; exact hinv
  | cons op rest ih =>
    intro st hinv
    exact ih _ (applyOp_statusInv env now st op hinv)

/- ===== Helper lemmas: workLink invariant at the route layer ===== -/

theorem itemUpdate_wlInv {st : DbState} {id : Nat} {u : UpdateData} {st2 : DbState}
    {rowOpt : Option WorkItemRow}
    (hu : u.workLink = .undef ∨ u.workLink = .null)
    (h : itemUpdate st id u = .ok (st2, rowOpt)) (hinv : workLinkInv st = true) :
    workLinkInv st2 = true := by
  unfold itemUpdate at h
  split at h
  · cases h
  · split at h
    next => cases h
    next st3 heq =>
      cases h
      exact runUpdate_wlInv hu heq hinv

theorem assignRoute_wlInv (env : SideEnv) (now : Nat) (p : Actor) (st : DbState)
    (b : AssignBody) (hinv : workLinkInv st = true) :
    workLinkInv (assignRoute env now p st b).2 = true := by
  unfold assignRoute
  try dsimp only
  repeat' split
  all_goals first
    | exact hinv
    | exact itemCreate_wlInv (by assumption) hinv

theorem completeRoute_wlInv (now : Nat) (p : Actor) (st : DbState) (id : Nat)
    (explanation workLink : Option String) (hinv : workLinkInv st = true) :
    workLinkInv (completeRoute now p st id explanation workLink).2 = true := by
  cases workLink with
  | none =>
    unfold completeRoute
    try dsimp only
    repeat' split
    all_goals try exact hinv
    all_goals rename_i st2 rowOpt heq
    all_goals exact markCompleted_wlInv (Or.inl rfl) heq hinv
  | some w =>
    unfold completeRoute
    try dsimp only
    by_cases hw : (jsTrim w == "") = true
    · rw [if_pos hw]
      repeat' split
      all_goals try exact hinv
      all_goals rename_i st2 rowOpt heq
      all_goals exact markCompleted_wlInv (Or.inl rfl) heq hinv
    · have hwf : (jsTrim w == "") = false := by simpa using hw
      rw [if_neg hw]
      repeat' split
      all_goals try exact hinv
      all_goals rename_i st2 rowOpt heq
      all_goals exact markCompleted_wlInv (Or.inr ⟨jsTrim w, rfl, jsTrim_idem w, hwf⟩) heq hinv

theorem approveRoute_wlInv (env : SideEnv) (now : Nat) (p : Actor) (st : DbState)
    (id : Nat) (notes : Option String) (hinv : workLinkInv st = true) :
    workLinkInv (approveRoute env now p st id notes).2 = true := by
  unfold approveRoute itemApprove
  try dsimp only
  repeat' split
  all_goals first
    | exact hinv
    | exact itemUpdate_wlInv (Or.inl rfl) (by assumption) hinv

theorem rejectRoute_wlInv (env : SideEnv) (now : Nat) (p : Actor) (st : DbState)
    (id : Nat) (notes : Option String) (hinv : workLinkInv st = true) :
    workLinkInv (rejectRoute env now p st id notes).2 = true := by
  unfold rejectRoute itemReject
  try dsimp only
  repeat' split
  all_goals try exact hinv
  all_goals rename_i st2 rowOpt heq
  all_goals split at heq
  all_goals first
    | cases heq
    | exact itemUpdate_wlInv (Or.inr rfl) heq hinv

theorem deleteRoute_wlInv (p : Actor) (st : DbState) (id : Nat)
    (hinv : workLinkInv st = true) :
    workLinkInv (deleteRoute p st id).2 = true := by
  unfold deleteRoute
  try dsimp only
  repeat' split
  all_goals first
    | exact hinv
    | exact itemDelete_wlInv hinv

theorem applyOp_wlInv (env : SideEnv) (now : Nat) (st : DbState) (op : LifecycleOp)
    (hop : isGenericUpdate op = false)
    (hinv : workLinkInv st = true) : workLinkInv (applyOp env now st op).2 = true := by
  cases op with
  | assign p b => exact assignRoute_wlInv env now p st b hinv
  | complete p id e w => exact completeRoute_wlInv now p st id e w hinv
  | approve p id n => exact approveRoute_wlInv env now p st id n hinv
  | reject p id n => exact rejectRoute_wlInv env now p st id n hinv
  | update p id u => cases hop
  | del p id => exact deleteRoute_wlInv p st id hinv

theorem runOps_wlInv (env : SideEnv) (now : Nat) :
    ∀ (ops : List LifecycleOp) (st : DbState),
      ops.all (fun op => !isGenericUpdate op) = true →
      workLinkInv st = true →
      workLinkInv (runOps env now st ops) = true := by
  intro ops
  induction ops with
  | nil => intro st _ hinv; exact hinv
  | cons op rest ih =>
    intro st hops hinv
    rw [List.all_cons] at hops
    have h1 : isGenericUpdate op = false := by
      have := hops
      simp at this
      exact this.1
    have h2 : rest.all (fun op => !isGenericUpdate op) = true := by
      have := hops
      simp at this
      rw [List.all_eq_true]
      intro x hx
      simp [this.2 x hx]
    exact ih _ h2 (applyOp_wlInv env now st op h1 hinv)

theorem completeRoute_bad_url (now : Nat) (p : Actor) (st : DbState) (id : Nat)
    (e w : String) (item : WorkItemRow)
    (he : (e == "") = false) (het : (jsTrim e == "") = false)
    (hfind : findItem st id = some item)
    (hallow : (!(p.role == "admin") && !(p.id == item.workerId)) = false)
    (hstat : (item.status == some "submitted" || item.status == some "approved") = false)
    (hwt : (jsTrim w == "") = false) (hurl : urlRegexTest (jsTrim w) = false) :
    completeRoute now p st id (some e) (some w) =
      (.serverError "Server error while completing task", st) := by
  unfold completeRoute
  rw [if_neg (by simp [strOptTruthy, he, het]), hfind]
  dsimp only
  rw [if_neg (by simp [hallow]), if_neg (by simp [hstat])]
  try dsimp only
  rw [if_neg (by simp [hwt])]
  unfold markCompleted
  rw [if_neg (by simp [strOptTruthy, het, jsTrim_idem, Option.getD_some]),
      if_pos (by simp [strOptTruthy, hwt, jsTrim_idem, hurl, Option.getD_some])]

theorem assignRoute_fk_failure (env : SideEnv) (now : Nat) (p : Actor) (st : DbState)
    (b : AssignBody) (hrole : p.role = "admin")
    (hw : (b.workerId == 0) = false) (ht : (b.task == "") = false)
    (hi : (b.instructions == "") = false) (hd : (b.deadline == "") = false)
    (hpid : (p.id == 0) = false)
    (hnw : userExists st b.workerId = false) :
    ∃ m, assignRoute env now p st b = (.serverError m, st) := by
  unfold assignRoute
  rw [hrole, if_neg (by decide), if_neg (by simp [hw, ht, hi, hd])]
  unfold itemCreate
  by_cases hlen : (200 < b.task.length)
  · rw [if_pos (by simp [hlen])]
    exact ⟨"Task cannot be longer than 200 characters", rfl⟩
  · rw [if_neg (by simp [hlen]), if_neg (by simp [hw, ht, hi, hd, hpid]),
        if_neg (by simp [validStatuses]), if_neg (by simp [strOptTruthy]),
        if_pos (by simp [hnw])]
    exact ⟨"Failed to create work item: FOREIGN KEY constraint failed", rfl⟩

/- ===== Claim theorems ===== -/

/-- Claim C1: for every work item in status submitted, a successful reject by
an admin actor with review notes provided (the notes passing the route
validation, and the admin present in the users table so the reviewedBy
foreign key holds, which every authenticated admin satisfies) results in a
state whose row has status rejected, reviewedAt and reviewedBy set,
reviewNotes equal to the trimmed notes, and submittedAt, explanation and
workLink all null. -/
theorem claim_C1_reject_clears_submission (env : SideEnv) (now : Nat) (p : Actor)
    (st : DbState) (id : Nat) (s : String) (item : WorkItemRow)
    (hrole : p.role = "admin")
    (hfind : findItem st id = some item)
    (hstat : item.status = some "submitted")
    (hlen : 10 ≤ (jsTrim s).length)
    (hfk : userExists st p.id = true) :
    ∃ st2, rejectRoute env now p st id (some s) =
      (.ok "Work rejected and returned for revision" (some { item with
        status := some "rejected", submittedAt := none, reviewedAt := some now,
        explanation := none, workLink := none, reviewNotes := some (jsTrim s),
        reviewedBy := some p.id }), st2) ∧
      findItem st2 id = some { item with
        status := some "rejected", submittedAt := none, reviewedAt := some now,
        explanation := none, workLink := none, reviewNotes := some (jsTrim s),
        reviewedBy := some p.id } := by
  refine ⟨_, rejectRoute_submitted_eq env now p st id s item hrole hfind hstat hlen hfk, ?_⟩
  unfold findItem
  dsimp only
  rw [find?_map_upd _ _ _ (fun r => getD_applyUpd_id r _)]
  unfold findItem at hfind
  rw [hfind]
  have hidm : (item.id == id) = true := by
    have h2 := List.find?_some hfind
    simpa using h2
  rw [Option.map_some', if_pos hidm]
  simp [applyUpd, JsVal.isNullV, emptyUpdate, setOpt, setOptTrim, setOptNat, setReq,
    setReqTrim, statusCheckOk, validStatuses, jsTrim_idem]

/-- Witness for C1 at a concrete input: the admin rejects the sample
submitted item with the notes given in the specification scenario. -/
theorem claim_C1_witness :
    ∃ st2, rejectRoute envOff 9 adminActor (dbWith sampleSubmitted) 1
        (some "Needs more detail") =
      (.ok "Work rejected and returned for revision" (some { sampleSubmitted with
        status := some "rejected", submittedAt := none, reviewedAt := some 9,
        explanation := none, workLink := none,
        reviewNotes := some (jsTrim "Needs more detail"),
        reviewedBy := some 1 }), st2) ∧
      findItem st2 1 = some { sampleSubmitted with
        status := some "rejected", submittedAt := none, reviewedAt := some 9,
        explanation := none, workLink := none,
        reviewNotes := some (jsTrim "Needs more detail"),
        reviewedBy := some 1 } :=
  claim_C1_reject_clears_submission envOff 9 adminActor (dbWith sampleSubmitted) 1
    "Needs more detail" sampleSubmitted rfl rfl rfl (by decide) rfl

/-- Claim C2: for every work item whose status is not submitted, approve
(with any body) and reject (with a body passing its input validation) by an
admin fail with the ConflictError branch of the error taxonomy (the explicit
400 with the message about the submitted precondition) and leave the store
unchanged; in particular a second approve does not re-apply. -/
theorem claim_C2_nonsubmitted_conflict (env : SideEnv) (now : Nat) (p : Actor)
    (st : DbState) (id : Nat) (item : WorkItemRow) (notes : Option String) (s : String)
    (hrole : p.role = "admin")
    (hfind : findItem st id = some item)
    (hstat : item.status ≠ some "submitted") :
    approveRoute env now p st id notes =
      (.conflictError "Work item must be submitted for review first", st) ∧
    (10 ≤ (jsTrim s).length →
      rejectRoute env now p st id (some s) =
        (.conflictError "Work item must be submitted for review first", st)) := by
  constructor
  · exact approveRoute_conflict env now p st id notes item hrole hfind hstat
  · intro hlen
    exact rejectRoute_conflict env now p st id s item hrole hlen hfind hstat

/-- Witness for C2 at a concrete input: a second approve of an already
approved item, and a reject of the same item, both yield the conflict
response with the store unchanged. -/
theorem claim_C2_witness :
    approveRoute envOff 9 adminActor (dbWith sampleApproved) 1 (some "Good") =
      (.conflictError "Work item must be submitted for review first", dbWith sampleApproved) ∧
    rejectRoute envOff 9 adminActor (dbWith sampleApproved) 1 (some "Needs more detail") =
      (.conflictError "Work item must be submitted for review first", dbWith sampleApproved) := by
  have h := claim_C2_nonsubmitted_conflict envOff 9 adminActor (dbWith sampleApproved) 1
    sampleApproved (some "Good") "Needs more detail" rfl rfl (by decide)
  exact ⟨h.1, h.2 (by decide)⟩

/-- Counterexample for C3: the claim says status is exactly one of the four
enumerated values at every observation point after any operation sequence
including generic update. The generic update route accepts a JSON-null
status (the allow-list filter keeps null, and the CHECK constraint of the
store passes on NULL), so an admin update with status null succeeds and
stores a NULL status, outside the enumeration. -/
theorem claim_C3_counterexample :
    updateRoute adminActor (dbWith samplePending) 1 statusNullUpdate =
      (.ok "Work item updated successfully" (some { samplePending with status := none }),
       dbWith { samplePending with status := none }) ∧
    strictStatusInv (updateRoute adminActor (dbWith samplePending) 1 statusNullUpdate).2 =
      false := by
  constructor
  · rfl
  · rfl

/-- Claim C3 as amended: after any sequence of lifecycle operations, the
status of every row is NULL or one of the four enumerated values; every
non-null status is in the enumeration (a non-null value outside it is
rejected by the store CHECK constraint and the update fails with the store
error, leaving the row unchanged), but a generic update may set status to
NULL. -/
theorem claim_C3_amended_status_inv (env : SideEnv) (now : Nat) (ops : List LifecycleOp)
    (st : DbState) (hinit : statusInv st = true) :
    statusInv (runOps env now st ops) = true :=
  runOps_statusInv env now ops st hinit

/-- Witness for the amended C3: running a concrete sequence (assign, then an
update that nulls the status, then complete) from the empty store keeps the
relaxed invariant. -/
theorem claim_C3_amended_witness :
    statusInv (runOps envOff 3 dbEmpty
      [LifecycleOp.assign adminActor ⟨2, "T", none, "I", "D"⟩,
       LifecycleOp.update adminActor 1 statusNullUpdate,
       LifecycleOp.complete workerActor 1 (some "Done") none]) = true :=
  claim_C3_amended_status_inv envOff 3
    [LifecycleOp.assign adminActor ⟨2, "T", none, "I", "D"⟩,
     LifecycleOp.update adminActor 1 statusNullUpdate,
     LifecycleOp.complete workerActor 1 (some "Done") none] dbEmpty (by decide)

/-- Counterexample for C4: the claim says existence of the referenced item
is checked before field-level validation. On the reject route the minimum
length check on the review notes runs before the item lookup: rejecting a
nonexistent item with short notes yields the validation response, not the
not-found response the claimed order requires. -/
theorem claim_C4_counterexample :
    findItem dbEmpty 1 = none ∧
    rejectRoute envOff 9 adminActor dbEmpty 1 (some "short") =
      (.validationError
        "Detailed review notes are required when rejecting work (minimum 10 characters)",
       dbEmpty) := by
  constructor
  · rfl
  · rfl

/-- Claim C4 as amended: the deterministic check order the code actually
implements. Role authorization (the requireAdmin middleware) precedes
everything on reject; the required-body-field check (review notes of
minimum trimmed length on reject, non-blank explanation on complete)
precedes the existence check; then existence, then ownership authorization
(complete), then the current-state precondition, then the remaining field
validation (the workLink URL format, whose violation surfaces through the
catch-all server error). A violation at any step short-circuits with the
store unchanged. -/
theorem claim_C4_amended_check_order (env : SideEnv) (now : Nat) (p : Actor)
    (st : DbState) (id : Nat) (notes expl wl : Option String) :
    (p.role ≠ "admin" →
      rejectRoute env now p st id notes = (.forbiddenError "Admin access required", st)) ∧
    (p.role = "admin" →
      (strOptTruthy notes = false ∨ (jsTrim (notes.getD "")).length < 10) →
      rejectRoute env now p st id notes =
        (.validationError
          "Detailed review notes are required when rejecting work (minimum 10 characters)", st)) ∧
    (∀ s, p.role = "admin" → 10 ≤ (jsTrim s).length → findItem st id = none →
      rejectRoute env now p st id (some s) = (.notFoundError "Work item not found", st)) ∧
    (∀ s item, p.role = "admin" → 10 ≤ (jsTrim s).length → findItem st id = some item →
      item.status ≠ some "submitted" →
      rejectRoute env now p st id (some s) =
        (.conflictError "Work item must be submitted for review first", st)) ∧
    ((strOptTruthy expl = false ∨ jsTrim (expl.getD "") = "") →
      completeRoute now p st id expl wl = (.validationError "Explanation is required", st)) ∧
    (∀ e, (e == "") = false → (jsTrim e == "") = false → findItem st id = none →
      completeRoute now p st id (some e) wl = (.notFoundError "Work item not found", st)) ∧
    (∀ e item, (e == "") = false → (jsTrim e == "") = false → findItem st id = some item →
      p.role ≠ "admin" → p.id ≠ item.workerId →
      completeRoute now p st id (some e) wl = (.forbiddenError "Access denied", st)) ∧
    (∀ e item, (e == "") = false → (jsTrim e == "") = false → findItem st id = some item →
      (p.role = "admin" ∨ p.id = item.workerId) →
      (item.status = some "submitted" ∨ item.status = some "approved") →
      completeRoute now p st id (some e) wl =
        (.conflictError "Task is already completed or under review", st)) ∧
    (∀ e w item, (e == "") = false → (jsTrim e == "") = false → findItem st id = some item →
      (!(p.role == "admin") && !(p.id == item.workerId)) = false →
      (item.status == some "submitted" || item.status == some "approved") = false →
      (jsTrim w == "") = false → urlRegexTest (jsTrim w) = false →
      completeRoute now p st id (some e) (some w) =
        (.serverError "Server error while completing task", st)) := by
  refine ⟨?_, ?_, ?_, ?_, ?_, ?_, ?_, ?_, ?_⟩
  · intro h
    exact rejectRoute_not_admin env now p st id notes h
  · intro h1 h2
    exact rejectRoute_bad_notes env now p st id notes h1 h2
  · intro s h1 h2 h3
    exact rejectRoute_not_found env now p st id s h1 h2 h3
  · intro s item h1 h2 h3 h4
    exact rejectRoute_conflict env now p st id s item h1 h2 h3 h4
  · intro h
    exact completeRoute_bad_explanation now p st id expl wl h
  · intro e h1 h2 h3
    exact completeRoute_not_found now p st id e wl h1 h2 h3
  · intro e item h1 h2 h3 h4 h5
    exact completeRoute_forbidden now p st id e wl item h1 h2 h3 h4 h5
  · intro e item h1 h2 h3 h4 h5
    exact completeRoute_conflict now p st id e wl item h1 h2 h3 h4 h5
  · intro e w item h1 h2 h3 h4 h5 h6 h7
    exact completeRoute_bad_url now p st id e w item h1 h2 h3 h4 h5 h6 h7

/-- Witness for the amended C4: one concrete request per check, showing the
first violated check determines the response and the store is unchanged. -/
theorem claim_C4_amended_witness :
    rejectRoute envOff 9 workerActor dbEmpty 1 (some "Needs more detail") =
      (.forbiddenError "Admin access required", dbEmpty) ∧
    rejectRoute envOff 9 adminActor dbEmpty 1 (some "short") =
      (.validationError
        "Detailed review notes are required when rejecting work (minimum 10 characters)",
       dbEmpty) ∧
    rejectRoute envOff 9 adminActor dbEmpty 1 (some "Needs more detail") =
      (.notFoundError "Work item not found", dbEmpty) ∧
    rejectRoute envOff 9 adminActor (dbWith sampleApproved) 1 (some "Needs more detail") =
      (.conflictError "Work item must be submitted for review first", dbWith sampleApproved) ∧
    completeRoute 9 workerActor (dbWith samplePending) 1 none none =
      (.validationError "Explanation is required", dbWith samplePending) ∧
    completeRoute 9 workerActor dbEmpty 1 (some "Done") none =
      (.notFoundError "Work item not found", dbEmpty) ∧
    completeRoute 9 outsiderActor (dbWith samplePending) 1 (some "Done") none =
      (.forbiddenError "Access denied", dbWith samplePending) ∧
    completeRoute 9 workerActor (dbWith sampleSubmitted) 1 (some "Done") none =
      (.conflictError "Task is already completed or under review", dbWith sampleSubmitted) ∧
    completeRoute 9 workerActor (dbWith samplePending) 1 (some "Done") (some "not-a-url") =
      (.serverError "Server error while completing task", dbWith samplePending) := by
  refine ⟨?_, ?_, ?_, ?_, ?_, ?_, ?_, ?_, ?_⟩
  · exact (claim_C4_amended_check_order envOff 9 workerActor dbEmpty 1
      (some "Needs more detail") none none).1 (by decide)
  · exact (claim_C4_amended_check_order envOff 9 adminActor dbEmpty 1
      (some "short") none none).2.1 rfl (Or.inr (by decide))
  · exact (claim_C4_amended_check_order envOff 9 adminActor dbEmpty 1
      (some "Needs more detail") none none).2.2.1 "Needs more detail" rfl (by decide) rfl
  · exact (claim_C4_amended_check_order envOff 9 adminActor (dbWith sampleApproved) 1
      (some "Needs more detail") none none).2.2.2.1 "Needs more detail" sampleApproved
      rfl (by decide) rfl (by decide)
  · exact (claim_C4_amended_check_order envOff 9 workerActor (dbWith samplePending) 1
      none none none).2.2.2.2.1 (Or.inl rfl)
  · exact (claim_C4_amended_check_order envOff 9 workerActor dbEmpty 1
      none (some "Done") none).2.2.2.2.2.1 "Done" (by decide) (by decide) rfl
  · exact (claim_C4_amended_check_order envOff 9 outsiderActor (dbWith samplePending) 1
      none (some "Done") none).2.2.2.2.2.2.1 "Done" samplePending (by decide) (by decide)
      rfl (by decide) (by decide)
  · exact (claim_C4_amended_check_order envOff 9 workerActor (dbWith sampleSubmitted) 1
      none (some "Done") none).2.2.2.2.2.2.2.1 "Done" sampleSubmitted (by decide) (by decide)
      rfl (Or.inr rfl) (Or.inl rfl)
  · exact (claim_C4_amended_check_order envOff 9 workerActor (dbWith samplePending) 1
      none (some "Done") none).2.2.2.2.2.2.2.2 "Done" "not-a-url" samplePending
      (by decide) (by decide) rfl (by decide) (by decide) (by decide) (by decide)

/-- Counterexample for C5: the assign route has no worker existence or
activity check of its own. For a nonexistent workerId the store foreign key
rejects the insert and the route answers with the catch-all server error
(500), not NotFound (404); and for an existing but inactive worker the
assignment succeeds and a work item is created, although the claim requires
a NotFound failure with the store unchanged. -/
theorem claim_C5_counterexample :
    userExists dbEmpty 5 = false ∧
    assignRoute envOff 3 adminActor dbEmpty ghostAssign =
      (.serverError "Failed to create work item: FOREIGN KEY constraint failed", dbEmpty) ∧
    inactiveUser.isActive = false ∧
    (assignRoute envOff 3 adminActor dbInactive dormantAssign).1 =
      .ok "Task assigned successfully" (some
        ⟨1, 4, "T", some "", "I", "D", some "pending", 3, none, none, none, none, none, 1, none⟩) ∧
    (assignRoute envOff 3 adminActor dbInactive dormantAssign).2.items.length = 1 := by
  refine ⟨rfl, rfl, rfl, rfl, rfl⟩

/-- Claim C5 as amended: when the workerId of an admin assign request (whose
required fields are present and whose acting admin has a nonzero id) does
not reference an existing user, the request fails with a server error (the
foreign key constraint of the store rejects the insert; there is no explicit
404 path) and the store is unchanged, so no work item is created. Activity
of the worker is never checked. -/
theorem claim_C5_amended_missing_worker (env : SideEnv) (now : Nat) (p : Actor)
    (st : DbState) (b : AssignBody) (hrole : p.role = "admin")
    (hw : (b.workerId == 0) = false) (ht : (b.task == "") = false)
    (hi : (b.instructions == "") = false) (hd : (b.deadline == "") = false)
    (hpid : (p.id == 0) = false)
    (hnw : userExists st b.workerId = false) :
    ∃ m, assignRoute env now p st b = (.serverError m, st) :=
  assignRoute_fk_failure env now p st b hrole hw ht hi hd hpid hnw

/-- Witness for the amended C5: assigning to the nonexistent worker id 5 on
the two-user store fails with a server error and leaves the store unchanged. -/
theorem claim_C5_amended_witness :
    ∃ m, assignRoute envOff 3 adminActor dbEmpty ghostAssign = (.serverError m, dbEmpty) :=
  claim_C5_amended_missing_worker envOff 3 adminActor dbEmpty ghostAssign rfl
    (by decide) (by decide) (by decide) (by decide) (by decide) rfl

/-- Claim C6: for every work item in status pending or rejected, a complete
request by the assignee or an admin with a non-blank explanation (and a
workLink that is absent, blank, or a valid URL after trimming) succeeds: the
item returns with status submitted, submittedAt set to the current time, and
the new trimmed explanation; in particular a worker resubmits a previously
rejected item this way. -/
theorem claim_C6_complete_submits (now : Nat) (p : Actor) (st : DbState) (id : Nat)
    (e : String) (wl : Option String) (item : WorkItemRow)
    (hfind : findItem st id = some item)
    (hstat : item.status = some "pending" ∨ item.status = some "rejected")
    (hallow : p.role = "admin" ∨ p.id = item.workerId)
    (hene : (e == "") = false) (het : (jsTrim e == "") = false)
    (hwl : wl = none ∨ ∃ w, wl = some w ∧
      ((jsTrim w == "") = true ∨ urlRegexTest (jsTrim w) = true)) :
    ∃ st2 wlV, completeRoute now p st id (some e) wl =
      (.ok "Task submitted for review successfully" (some { item with
        status := some "submitted", submittedAt := some now,
        explanation := some (jsTrim e), workLink := wlV }), st2) := by
  have hallowB : (!(p.role == "admin") && !(p.id == item.workerId)) = false := by
    rcases hallow with h | h
    · simp [h]
    · simp [h]
  have hstatB : (item.status == some "submitted" || item.status == some "approved") = false := by
    rcases hstat with h | h
    · simp [h]
    · simp [h]
  rcases hwl with hnone | ⟨w, hsome, hw⟩
  · subst hnone
    exact ⟨_, none, completeRoute_ok_shape now p st id e none item none hene het hfind
      hallowB hstatB rfl (Or.inl rfl)⟩
  · subst hsome
    by_cases hwe : (jsTrim w == "") = true
    · exact ⟨_, none, completeRoute_ok_shape now p st id e (some w) item none hene het hfind
        hallowB hstatB (by simp [hwe]) (Or.inl rfl)⟩
    · have hwef : (jsTrim w == "") = false := by simpa using hwe
      have hurl : urlRegexTest (jsTrim w) = true := Or.resolve_left hw hwe
      exact ⟨_, some (jsTrim w), completeRoute_ok_shape now p st id e (some w) item
        (some (jsTrim w)) hene het hfind hallowB hstatB (by simp [hwef])
        (Or.inr ⟨jsTrim w, rfl, jsTrim_idem w, hwef, hurl⟩)⟩

/-- Witness for C6: the worker resubmits the previously rejected sample item
with a new explanation and a valid workLink; the item returns to submitted. -/
theorem claim_C6_witness :
    ∃ st2 wlV, completeRoute 9 workerActor (dbWith sampleRejected) 1
        (some "Done again") (some "https://x.dev/a") =
      (.ok "Task submitted for review successfully" (some { sampleRejected with
        status := some "submitted", submittedAt := some 9,
        explanation := some (jsTrim "Done again"), workLink := wlV }), st2) :=
  claim_C6_complete_submits 9 workerActor (dbWith sampleRejected) 1 "Done again"
    (some "https://x.dev/a") sampleRejected rfl (Or.inr rfl) (Or.inr rfl)
    (by decide) (by decide)
    (Or.inr ⟨"https://x.dev/a", rfl, Or.inr (by decide)⟩)

/-- Claim C7: an actor who is neither an admin nor the assignee can never
complete another workers item: the store is unchanged and the request never
succeeds whatever the body, and whenever the required explanation field
passes its validation the response is the Forbidden access-denied error. -/
theorem claim_C7_outsider_cannot_complete (now : Nat) (p : Actor) (st : DbState)
    (id : Nat) (expl wl : Option String) (item : WorkItemRow)
    (hrole : p.role ≠ "admin") (hown : p.id ≠ item.workerId)
    (hfind : findItem st id = some item) :
    (completeRoute now p st id expl wl).2 = st ∧
    RouteResult.isOk (completeRoute now p st id expl wl).1 = false ∧
    (∀ e, expl = some e → (e == "") = false → (jsTrim e == "") = false →
      completeRoute now p st id expl wl = (.forbiddenError "Access denied", st)) := by
  have hcond : (!(p.role == "admin") && !(p.id == item.workerId)) = true := by
    simp [hrole, hown]
  have hshape :
      completeRoute now p st id expl wl = (.validationError "Explanation is required", st) ∨
      completeRoute now p st id expl wl = (.forbiddenError "Access denied", st) := by
    unfold completeRoute
    by_cases hb : (!(strOptTruthy expl) || (jsTrim (expl.getD "") == "")) = true
    · rw [if_pos hb]
      exact Or.inl rfl
    · rw [if_neg hb, hfind]
      dsimp only
      rw [if_pos hcond]
      exact Or.inr rfl
  refine ⟨?_, ?_, ?_⟩
  · rcases hshape with h | h <;> rw [h]
  · rcases hshape with h | h <;> rw [h] <;> rfl
  · intro e he1 he2 he3
    rw [he1]
    exact completeRoute_forbidden now p st id e wl item he2 he3 hfind hrole hown

/-- Witness for C7: a different worker (id 3) tries to complete the item
assigned to worker 2; the request is denied and the store unchanged. -/
theorem claim_C7_witness :
    (completeRoute 9 outsiderActor (dbWith samplePending) 1 (some "Hi") none).2 =
      dbWith samplePending ∧
    RouteResult.isOk (completeRoute 9 outsiderActor (dbWith samplePending) 1
      (some "Hi") none).1 = false ∧
    completeRoute 9 outsiderActor (dbWith samplePending) 1 (some "Hi") none =
      (.forbiddenError "Access denied", dbWith samplePending) := by
  have h := claim_C7_outsider_cannot_complete 9 outsiderActor (dbWith samplePending) 1
    (some "Hi") none samplePending (by decide) (by decide) rfl
  exact ⟨h.1, h.2.1, h.2.2 "Hi" rfl (by decide) (by decide)⟩

/-- Counterexample for C8: the claim says every non-null workLink matches
the URL pattern at every observation point including after generic update,
and that a malformed workLink on complete yields ValidationError. The
generic update route stores a workLink without any URL validation, breaking
the invariant; and a malformed workLink on complete is thrown inside
markCompleted and surfaces as the catch-all 500 server error, not as the
explicit validation response. -/
theorem claim_C8_counterexample :
    (updateRoute adminActor (dbWith samplePending) 1 badLinkUpdate).1 =
      .ok "Work item updated successfully"
        (some { samplePending with workLink := some "not-a-url" }) ∧
    urlRegexTest "not-a-url" = false ∧
    workLinkInv (updateRoute adminActor (dbWith samplePending) 1 badLinkUpdate).2 = false ∧
    completeRoute 9 workerActor (dbWith samplePending) 1 (some "Done") (some "not-a-url") =
      (.serverError "Server error while completing task", dbWith samplePending) := by
  refine ⟨rfl, rfl, rfl, rfl⟩

/-- Claim C8 as amended: along any operation sequence that contains no
generic update, a non-null workLink always passes the URL regex (assign
inserts NULL, complete validates or nulls it, reject clears it, approve
leaves it); a generic update may store an arbitrary workLink. A malformed
workLink supplied to complete leaves the item unchanged but surfaces as the
catch-all server error rather than a ValidationError response. -/
theorem claim_C8_amended_worklink (env : SideEnv) (now : Nat) (ops : List LifecycleOp)
    (st : DbState) :
    (ops.all (fun op => !isGenericUpdate op) = true → workLinkInv st = true →
      workLinkInv (runOps env now st ops) = true) ∧
    (∀ (p : Actor) (id : Nat) (e w : String) (item : WorkItemRow),
      (e == "") = false → (jsTrim e == "") = false → findItem st id = some item →
      (!(p.role == "admin") && !(p.id == item.workerId)) = false →
      (item.status == some "submitted" || item.status == some "approved") = false →
      (jsTrim w == "") = false → urlRegexTest (jsTrim w) = false →
      completeRoute now p st id (some e) (some w) =
        (.serverError "Server error while completing task", st)) := by
  constructor
  · intro hops hinv
    exact runOps_wlInv env now ops st hops hinv
  · intro p id e w item h1 h2 h3 h4 h5 h6 h7
    exact completeRoute_bad_url now p st id e w item h1 h2 h3 h4 h5 h6 h7

/-- Witness for the amended C8: a concrete update-free sequence keeps the
workLink invariant from the empty store, and the concrete malformed-link
complete is rejected with the store unchanged. -/
theorem claim_C8_amended_witness :
    workLinkInv (runOps envOff 3 dbEmpty
      [LifecycleOp.assign adminActor ⟨2, "T", none, "I", "D"⟩,
       LifecycleOp.complete workerActor 1 (some "Done") (some "https://x.dev/a")]) = true ∧
    completeRoute 3 workerActor (dbWith samplePending) 1 (some "Done") (some "not-a-url") =
      (.serverError "Server error while completing task", dbWith samplePending) := by
  constructor
  · exact (claim_C8_amended_worklink envOff 3
      [LifecycleOp.assign adminActor ⟨2, "T", none, "I", "D"⟩,
       LifecycleOp.complete workerActor 1 (some "Done") (some "https://x.dev/a")]
      dbEmpty).1 (by decide) (by decide)
  · exact (claim_C8_amended_worklink envOff 3 [] (dbWith samplePending)).2
      workerActor 1 "Done" "not-a-url" samplePending (by decide) (by decide) rfl
      (by decide) (by decide) (by decide) (by decide)

/-- Counterexample for C9: the claim says a notification failure is reported
to the caller as an advisory flag (such as notificationSent false) in the
successful response. In the code the result object of sendTaskNotification
is discarded: with the email service disabled the notification result is a
failure while with it working it is a success, yet the assign responses are
identical and carry only the message and the created item, so no advisory
flag reaches the caller. -/
theorem claim_C9_counterexample :
    (sendTaskNotification envOff.email workerUser.email "s" "t").success = false ∧
    (sendTaskNotification envOn.email workerUser.email "s" "t").success = true ∧
    assignRoute envOff 3 adminActor dbEmpty okAssign =
      assignRoute envOn 3 adminActor dbEmpty okAssign ∧
    (assignRoute envOff 3 adminActor dbEmpty okAssign).1 =
      .ok "Task assigned successfully" (some
        ⟨1, 2, "T", some "", "I", "D", some "pending", 3, none, none, none, none, none, 1, none⟩) := by
  refine ⟨rfl, rfl, rfl, rfl⟩

/-- Claim C9 as amended: the notification and calendar side effects run
after the state mutation, return result objects instead of throwing, and
never fail or revert the transition; their outcome is not reported to the
caller at all — the full response and post-state of assign, approve and
reject are identical under any two side-effect environments. -/
theorem claim_C9_amended_side_effects (env1 env2 : SideEnv) (now : Nat) (p : Actor)
    (st : DbState) (b : AssignBody) (id : Nat) (notes : Option String) :
    assignRoute env1 now p st b = assignRoute env2 now p st b ∧
    approveRoute env1 now p st id notes = approveRoute env2 now p st id notes ∧
    rejectRoute env1 now p st id notes = rejectRoute env2 now p st id notes := by
  refine ⟨?_, ?_, ?_⟩
  · unfold assignRoute
    dsimp only
  · unfold approveRoute
    dsimp only
  · unfold rejectRoute
    dsimp only

/-- Claim C10: for an admin caller, GET /stats is dispatched by Express to
the earlier-registered parameterized GET /:id route, whose lookup of the
text id "stats" finds no row (numeric affinity fails to convert it), so the
caller receives the 404 not-found response instead of the aggregate counts
the stats handler (registered later and unreachable on this path) would
produce. -/
theorem claim_C10_stats_shadowed : ∀ st : DbState,
    dispatchGet ["stats"] = some WorkGetRoute.itemById ∧
    getByIdRoute adminActor st "stats" = .notFoundError "Work item not found" ∧
    (statsRoute adminActor st).1 = .statsOk st.items.length (countWithStatus st "pending")
      (countWithStatus st "submitted") (countWithStatus st "approved")
      (countWithStatus st "rejected") := by
  intro st
  refine ⟨rfl, ?_, ?_⟩
  · unfold getByIdRoute
    have hnone : st.items.find? (fun r => textIdMatches "stats" r.id) = none := by
      rw [List.find?_eq_none]
      intro r _
      have htn : decimalNat? "stats".data = none := by decide
      simp [textIdMatches, htn]
    rw [hnone]
  · unfold statsRoute
    rw [if_neg (by decide)]
